import Mathlib

/-!
Shallow embedding of src/app.py (a Flask chat backend).

The upstream generative backend, speech synthesis and markdown rendering
are external collaborators; they are modelled as oracle fields of `World`.
Each oracle maps the request the Python code would send to the outcome
class the Python code distinguishes: a successfully extracted text, or an
exception / malformed payload (everything the bare `except` clauses catch).
Call traces are made explicit so that attempt counts can be stated.
-/

namespace RobloxAI

/-- Outcome of one generateContent call as the code observes it:
either the text at candidates[0].content.parts[0].text was extracted,
or anything else happened (transport error, backend error payload,
malformed JSON), which the bare `except` treats uniformly; `detail`
is the str of the raised exception. -/
inductive GenOutcome where
  | ok (text : String)
  | err (detail : String)
deriving Repr, DecidableEq

/-- One outgoing generateContent request: the target model, the text part
of the payload, and the optional inline image data. -/
structure Call where
  model : String
  text : String
  image : Option String
deriving Repr, DecidableEq

/-- One element of candidates[0].content.parts in a voice-mode reply;
the code probes it for a "text" key and an "inline_data" key. -/
structure VoicePart where
  text : Option String
  inline_data : Option String

/-- Outcome of the voice-mode call as the code branches on it:
an exception anywhere in post / json / extraction, a parsed body without
a "candidates" key, or the extracted parts list. -/
inductive VoiceResp where
  | raiseExc (detail : String)
  | noCandidates
  | candidates (parts : List VoicePart)

/-- The external collaborators: the generateContent backend (used by both
text mode and the Director review), the native-audio backend, the TTS
fallback (generate_neural_speech: Some data or None), and the markdown2
renderer behind parse_markdown. -/
structure World where
  gen : Call → GenOutcome
  voice : Option String → VoiceResp
  tts : String → Option String
  md : String → String

/-- MODELS["GEMINI"], the Standard Brain. -/
def MODELS_GEMINI : String := "gemini-3-flash-preview"

/-- MODELS["GEMMA"], the Creative / Open Model. -/
def MODELS_GEMMA : String := "gemma-3-27b-it"

/-- MODELS["DIRECTOR"], the Deep Think Reviewer. -/
def MODELS_DIRECTOR : String := "gemini-3-flash-preview"

/-- MODELS["NATIVE_AUDIO"], Voice Mode. -/
def MODELS_NATIVE_AUDIO : String := "gemini-2.5-flash-native-audio-dialog"

/-- MODELS["NEURAL_TTS"], Fallback TTS. -/
def MODELS_NEURAL_TTS : String := "gemini-2.5-flash-tts"

/-- The MODELS dict of app.py. -/
def MODELS : List (String × String) :=
  [("GEMINI", MODELS_GEMINI), ("GEMMA", MODELS_GEMMA), ("DIRECTOR", MODELS_DIRECTOR),
   ("NATIVE_AUDIO", MODELS_NATIVE_AUDIO), ("NEURAL_TTS", MODELS_NEURAL_TTS)]

/-- MODELS.get(model_id, MODELS["GEMINI"]): a missing or unknown key
falls back to the GEMINI model. -/
def models_get (key : Option String) : String :=
  match key with
  | none => MODELS_GEMINI
  | some k => (((MODELS.find? (fun p => p.1 == k)).map Prod.snd).getD MODELS_GEMINI)

/-- The review prompt built by director_review (the source wording uses a
contraction in "If it is good"). -/
def review_prompt (prompt initial_response : String) : String :=
  "User Prompt: " ++ prompt ++ "\n" ++
  "AI Draft Response: " ++ initial_response ++ "\n\n" ++
  "You are the Director. Review the draft for accuracy, tone, and safety. " ++
  "If it is good, return it exactly as is. If it needs improvement, rewrite it better."

/-- The single backend request director_review sends: the DIRECTOR model
with the review prompt, no image. -/
def director_call (prompt initial_response : String) : Call :=
  { model := MODELS_DIRECTOR, text := review_prompt prompt initial_response, image := none }

/-- director_review of app.py: one post to the DIRECTOR model; on a
successfully extracted text, return it; on any exception (transport or
malformed reply), return initial_response. The second component is the
list of backend calls made. -/
def director_review (B : Call → GenOutcome) (prompt initial_response : String) :
    String × List Call :=
  let c := director_call prompt initial_response
  match B c with
  | GenOutcome.ok t => (t, [c])
  | GenOutcome.err _ => (initial_response, [c])

/-- The dict call_ai returns for text and voice modes: keys "text" and
"audio". -/
structure AIResult where
  text : String
  audio : Option String
deriving Repr, DecidableEq

/-- The single generateContent request text mode sends: the resolved
model, the part "User: " prefixed to the prompt, and the optional image. -/
def gen_call (model_id : Option String) (prompt : String) (image_data : Option String) : Call :=
  { model := models_get model_id, text := "User: " ++ prompt, image := image_data }

/-- The text-mode branch of call_ai, with its backend-call trace.
One post to the resolved model; on extraction success the text is
optionally passed through director_review (deep_think), and the result
dict carries it with audio None; on any exception the dict carries
"Error: " ++ detail. -/
def call_ai_textT (W : World) (model_id : Option String) (prompt : String)
    (image_data : Option String) (deep_think : Bool) : AIResult × List Call :=
  let c := gen_call model_id prompt image_data
  match W.gen c with
  | GenOutcome.ok response_text =>
      if deep_think then
        let r := director_review W.gen prompt response_text
        ({ text := r.1, audio := none }, c :: r.2)
      else
        ({ text := response_text, audio := none }, [c])
  | GenOutcome.err e =>
      ({ text := "Error: " ++ e, audio := none }, [c])

/-- generate_neural_speech: posts resp_text to the TTS model and returns
the inline data if present, else None; modelled by the tts oracle. -/
def generate_neural_speech (W : World) (text : String) : Option String :=
  W.tts text

/-- Python truthiness of resp_audio: None and the empty string are falsy. -/
def truthy_audio : Option String → Bool
  | none => false
  | some a => !a.isEmpty

/-- The voice-mode branch of call_ai: defaults resp_text to
"Audio Message.", folds over the reply parts keeping the last text and
last inline_data, falls back to generate_neural_speech when resp_audio is
falsy, and converts any exception to a result whose text is the detail. -/
def call_ai_voice (W : World) (audio_data : Option String) : AIResult :=
  match W.voice audio_data with
  | VoiceResp.raiseExc e => { text := e, audio := none }
  | VoiceResp.noCandidates =>
      { text := "Audio Message.", audio := generate_neural_speech W "Audio Message." }
  | VoiceResp.candidates parts =>
      let resp_text := parts.foldl (fun acc p => p.text.getD acc) "Audio Message."
      let resp_audio := parts.foldl
        (fun acc p => match p.inline_data with | some d => some d | none => acc)
        (none : Option String)
      let resp_audio2 :=
        if truthy_audio resp_audio then resp_audio else generate_neural_speech W resp_text
      { text := resp_text, audio := resp_audio2 }

/-- call_ai of app.py: mode "text" and mode "voice" each return a result
dict; any other mode falls off the end of the function and returns None. -/
def call_ai (W : World) (mode : String) (model_id : Option String) (prompt : String)
    (audio_data : Option String) (image_data : Option String) (deep_think : Bool) :
    Option AIResult :=
  if mode = "text" then some (call_ai_textT W model_id prompt image_data deep_think).1
  else if mode = "voice" then some (call_ai_voice W audio_data)
  else none

/-- parse_markdown: markdown2 with a fixed extras list; the renderer is
an external collaborator, modelled by the md oracle. -/
def parse_markdown (W : World) (text : String) : String :=
  W.md text

/-- The JSON body accepted by the text endpoints: prompt, optional model
key, optional image data, and the deep_think flag (absent reads as
false through Python truthiness). -/
structure TextRequest where
  prompt : String
  model : Option String
  image : Option String
  deep_think : Bool

/-- The JSON body returned by /process_text. -/
structure TextResponse where
  text : String
  html : String
deriving Repr, DecidableEq

/-- /process_text: one synchronous call_ai in text mode, then
parse_markdown on the returned text; none models an uncaught exception
(subscripting a None result), which Flask would surface as a 500. -/
def process_text (W : World) (req : TextRequest) : Option TextResponse :=
  (call_ai W "text" req.model req.prompt none req.image req.deep_think).map
    (fun res => { text := res.text, html := parse_markdown W res.text })

/-- One server-sent event of /process_text_stream. -/
inductive StreamEvent where
  | thinking (text : String)
  | response (text : String) (html : String)
  | done
deriving Repr, DecidableEq

/-- The scripted thinking events of /process_text_stream: two fixed lines,
plus two more when deep_think is set; they are emitted before call_ai
runs and depend only on the flag. -/
def thinking_events (deep_think : Bool) : List StreamEvent :=
  [StreamEvent.thinking "Analyzing your request...",
   StreamEvent.thinking "Processing with AI model..."] ++
  (if deep_think then
    [StreamEvent.thinking "Director is reviewing...",
     StreamEvent.thinking "Refining response..."]
  else [])

/-- /process_text_stream: the scripted thinking events, then the same
call_ai plus parse_markdown composition as /process_text emitted as one
response event, then a done event; an exception inside the generator
would truncate the stream (none branch). -/
def process_text_stream (W : World) (req : TextRequest) : List StreamEvent :=
  thinking_events req.deep_think ++
  match call_ai W "text" req.model req.prompt none req.image req.deep_think with
  | some res => [StreamEvent.response res.text (parse_markdown W res.text), StreamEvent.done]
  | none => []

/-- The backtick character, U+0060. -/
def backtick : Char := Char.ofNat 96

/-- Remove every triple-backtick fence marker from a character list. -/
def strip_fences_list : List Char → List Char
  | a :: b :: c :: rest =>
      if a = backtick ∧ b = backtick ∧ c = backtick then strip_fences_list rest
      else a :: strip_fences_list (b :: c :: rest)
  | l => l

/-- Modelled from the spec: the post-processing normalization step that
"strips backend-specific code-fence markup" from the assembled artifact.
No such step exists in src/app.py; this definition follows the spec words
(remove every code-fence marker) for comparison. -/
def strip_code_fences (s : String) : String :=
  String.mk (strip_fences_list s.data)

/-- ASCII lowercase folding, for stating case-insensitive comparison. -/
def ascii_lower (s : String) : String :=
  String.mk (s.data.map
    (fun c => if 65 ≤ c.toNat ∧ c.toNat ≤ 90 then Char.ofNat (c.toNat + 32) else c))

/-- A fixed concrete markdown renderer for closed test worlds. -/
def mdDemo : String → String := fun s => "<p>" ++ s ++ "</p>"

/-- A closed World around a given generateContent oracle. -/
def demoWorld (g : Call → GenOutcome) : World :=
  { gen := g, voice := fun _ => VoiceResp.noCandidates, tts := fun _ => none, md := mdDemo }

/-- A backend that always extracts the same text. -/
def constGen (t : String) : Call → GenOutcome := fun _ => GenOutcome.ok t

/-- A two-candidate chain scenario: the GEMINI model fails, the GEMMA
model would succeed. -/
def chainGen : Call → GenOutcome := fun c =>
  if c.model = MODELS_GEMINI then GenOutcome.err "backend down"
  else if c.model = MODELS_GEMMA then GenOutcome.ok "ok from candidate two"
  else GenOutcome.err "unknown model"

/-- A closed world whose backend always succeeds with "hello". -/
def W0 : World := demoWorld (constGen "hello")

/-- A closed world whose backend always fails with detail "boom". -/
def Wfail : World := demoWorld (fun _ => GenOutcome.err "boom")

/-- A generated text that contains code-fence markers. -/
def fencedText : String := "```lua\nprint(1)\n```"

/-- A closed world whose backend always returns fencedText. -/
def Wfence : World := demoWorld (constGen fencedText)

/-- Claim C1 counterexample: in a two-candidate chain scenario (the GEMINI
model fails, the GEMMA model would succeed, so N = 2 and K = 1), call_ai
in text mode makes exactly one backend attempt and returns an error
result; it does not make K+1 = 2 attempts and does not return candidate
two`s output, refuting the chain-fallback claim. -/
theorem call_ai_no_chain_fallback_cex :
    (call_ai_textT (demoWorld chainGen) (some "GEMINI") "make a red cube" none false).2.length = 1 ∧
    (call_ai_textT (demoWorld chainGen) (some "GEMINI") "make a red cube" none false).1.text =
      "Error: backend down" ∧
    chainGen (gen_call (some "GEMMA") "make a red cube" none) =
      GenOutcome.ok "ok from candidate two" ∧
    ¬ ((call_ai_textT (demoWorld chainGen) (some "GEMINI") "make a red cube" none false).2.length = 2 ∧
       (call_ai_textT (demoWorld chainGen) (some "GEMINI") "make a red cube" none false).1.text =
         "ok from candidate two") := by
  decide

/-- Claim C1 (amended): call_ai in text mode (without deep think) makes
exactly one backend attempt, against the single resolved model; if that
attempt succeeds its output is returned, and if it fails an error-text
result is returned with no further attempt — there is no multi-candidate
fallback chain. -/
theorem call_ai_text_one_attempt (W : World) (model_id : Option String)
    (prompt : String) (image_data : Option String) :
    (call_ai_textT W model_id prompt image_data false).2 =
      [gen_call model_id prompt image_data] ∧
    (call_ai_textT W model_id prompt image_data false).1 =
      (match W.gen (gen_call model_id prompt image_data) with
       | GenOutcome.ok t => { text := t, audio := none }
       | GenOutcome.err e => { text := "Error: " ++ e, audio := none }) := by
  cases h : W.gen (gen_call model_id prompt image_data) <;> simp [call_ai_textT, h]

/-- Claim C2 counterexample: for a backend that generates
"a red cube script", the submit endpoint /process_text returns that very
generated result (text plus its rendering) in its HTTP response — not an
acknowledgement — refuting the claim that it never returns the generated
result. -/
theorem process_text_returns_result_cex :
    (demoWorld (constGen "a red cube script")).gen (gen_call none "make a red cube" none) =
      GenOutcome.ok "a red cube script" ∧
    process_text (demoWorld (constGen "a red cube script"))
        { prompt := "make a red cube", model := none, image := none, deep_think := false } =
      some { text := "a red cube script", html := mdDemo "a red cube script" } := by
  decide

/-- Claim C2 (amended): /process_text executes the whole pipeline
synchronously inside the request and returns the generated result itself
(the call_ai text together with its markdown rendering); there is no job
id, no queue and no acknowledgement-only reply. -/
theorem process_text_synchronous_result (W : World) (req : TextRequest) :
    ∃ r : AIResult,
      call_ai W "text" req.model req.prompt none req.image req.deep_think = some r ∧
      process_text W req = some { text := r.text, html := parse_markdown W r.text } := by
  refine ⟨(call_ai_textT W req.model req.prompt req.image req.deep_think).1, ?_, ?_⟩ <;>
    simp [call_ai, process_text]

/-- Claim C3 counterexample: director_review has no sentinel check; the
reviewer is told to approve by returning the draft exactly as is, yet for
a reviewer response that matches the draft only case-insensitively
("ok draft" versus draft "OK Draft") the function returns the response
text, not the draft — refuting the case-insensitive clause of the claim. -/
theorem director_review_sentinel_case_cex :
    ascii_lower "ok draft" = ascii_lower "OK Draft" ∧
    (director_review (fun _ => GenOutcome.ok "ok draft") "p" "OK Draft").1 = "ok draft" ∧
    ("ok draft" : String) ≠ "OK Draft" := by
  decide

/-- Claim C3 (amended): when the reviewer approves by echoing the draft
exactly (case-sensitively), director_review returns the draft unmodified
and makes exactly one backend call, so no fix call is issued. -/
theorem director_review_echo_approved (B : Call → GenOutcome) (prompt draft : String)
    (h : B (director_call prompt draft) = GenOutcome.ok draft) :
    director_review B prompt draft = (draft, [director_call prompt draft]) := by
  simp [director_review, h]

/-- Claim C3 witness: a concrete run of the amended theorem with a
reviewer that echoes the draft "X". -/
theorem director_review_echo_approved_witness :
    director_review (fun _ => GenOutcome.ok "X") "p" "X" = ("X", [director_call "p" "X"]) :=
  director_review_echo_approved (fun _ => GenOutcome.ok "X") "p" "X" rfl

/-- Claim C4 counterexample: for a reviewer response that is a critique
("needs more detail", not an approval of draft "X"), director_review
makes exactly one backend call in total — it never issues a second (fix)
call — and returns that single response verbatim, refuting the claim that
exactly one extra fix call is issued. -/
theorem director_review_no_fix_call_cex :
    (director_review (fun _ => GenOutcome.ok "needs more detail") "p" "X").2.length = 1 ∧
    ¬ (director_review (fun _ => GenOutcome.ok "needs more detail") "p" "X").2.length = 2 ∧
    (director_review (fun _ => GenOutcome.ok "needs more detail") "p" "X").1 =
      "needs more detail" := by
  decide

/-- Claim C4 (amended): for every reviewer response, director_review
makes exactly one backend call (a combined critique-and-rewrite call) and
returns the extracted response text verbatim, falling back to the draft
on failure; the cycle is bounded to that single call and never recursive. -/
theorem director_review_single_call (B : Call → GenOutcome) (prompt draft : String) :
    (director_review B prompt draft).2 = [director_call prompt draft] ∧
    (director_review B prompt draft).1 =
      (match B (director_call prompt draft) with
       | GenOutcome.ok t => t
       | GenOutcome.err _ => draft) := by
  cases h : B (director_call prompt draft) <;> simp [director_review, h]

/-- Claim C5: if the backend call made during review fails (raises or
yields a malformed response), director_review returns the pre-review
draft unchanged rather than propagating the error. -/
theorem director_review_fail_open (B : Call → GenOutcome) (prompt draft e : String)
    (h : B (director_call prompt draft) = GenOutcome.err e) :
    (director_review B prompt draft).1 = draft := by
  simp [director_review, h]

/-- Claim C5 witness: a concrete failing reviewer backend, discharged on
draft "draft". -/
theorem director_review_fail_open_witness :
    (director_review (fun _ => GenOutcome.err "timeout") "p" "draft").1 = "draft" :=
  director_review_fail_open (fun _ => GenOutcome.err "timeout") "p" "draft" "timeout" rfl

/-- Claim C6 counterexample: for a backend whose generated text contains
code-fence markers, /process_text delivers that text verbatim, fences
included; it differs from the spec-modelled fence-stripped form, refuting
the claim that fence markers are stripped before delivery. -/
theorem process_text_no_fence_strip_cex :
    Wfence.gen (gen_call none "script please" none) = GenOutcome.ok fencedText ∧
    process_text Wfence
        { prompt := "script please", model := none, image := none, deep_think := false } =
      some { text := fencedText, html := mdDemo fencedText } ∧
    strip_code_fences fencedText = "lua\nprint(1)\n" ∧
    fencedText ≠ strip_code_fences fencedText := by
  decide

/-- Claim C6 (amended): for every successful generation (deep think off),
the text delivered by /process_text equals the backend generated text
verbatim — no code-fence stripping or other normalization is applied. -/
theorem process_text_delivers_raw_text (W : World) (req : TextRequest) (t : String)
    (hdt : req.deep_think = false)
    (h : W.gen (gen_call req.model req.prompt req.image) = GenOutcome.ok t) :
    process_text W req = some { text := t, html := parse_markdown W t } := by
  simp [process_text, call_ai, call_ai_textT, hdt, h]

/-- Claim C6 witness: the amended theorem discharged on the fenced text
world. -/
theorem process_text_delivers_raw_text_witness :
    process_text Wfence { prompt := "code", model := none, image := none, deep_think := false } =
      some { text := fencedText, html := parse_markdown Wfence fencedText } :=
  process_text_delivers_raw_text Wfence
    { prompt := "code", model := none, image := none, deep_think := false }
    fencedText rfl (by decide)

/-- Claim C7: when the single backend attempt of a text-mode generation
fails, call_ai returns a result dict carrying the observed error detail
("Error: " ++ detail) instead of raising, and /process_text delivers it
as an ordinary text-and-html response — no job-level error reaches the
consumer through the result interface. -/
theorem call_ai_text_failure_result (W : World) (mid : Option String) (p : String)
    (img : Option String) (dt : Bool) (e : String)
    (h : W.gen (gen_call mid p img) = GenOutcome.err e) :
    call_ai W "text" mid p none img dt = some { text := "Error: " ++ e, audio := none } ∧
    process_text W { prompt := p, model := mid, image := img, deep_think := dt } =
      some { text := "Error: " ++ e, html := parse_markdown W ("Error: " ++ e) } := by
  constructor <;> simp [call_ai, call_ai_textT, process_text, h]

/-- Claim C7 witness: the failing world Wfail, discharged concretely. -/
theorem call_ai_text_failure_result_witness :
    call_ai Wfail "text" none "hi" none none false =
      some { text := "Error: " ++ "boom", audio := none } ∧
    process_text Wfail { prompt := "hi", model := none, image := none, deep_think := false } =
      some { text := "Error: " ++ "boom", html := parse_markdown Wfail ("Error: " ++ "boom") } :=
  call_ai_text_failure_result Wfail none "hi" none false "boom" rfl

/-- Claim C8: the Deep Think review is applied if and only if deep_think
is set: with deep_think false the returned text is the raw backend output
and the call trace is exactly the one generation call (no review call);
with deep_think true the result is director_review applied to the draft,
and the review call appears in the trace. -/
theorem call_ai_deep_think_iff (W : World) (mid : Option String) (p : String)
    (img : Option String) (t : String)
    (h : W.gen (gen_call mid p img) = GenOutcome.ok t) :
    call_ai_textT W mid p img false = ({ text := t, audio := none }, [gen_call mid p img]) ∧
    call_ai_textT W mid p img true =
      ({ text := (director_review W.gen p t).1, audio := none },
        gen_call mid p img :: (director_review W.gen p t).2) := by
  constructor <;> simp [call_ai_textT, h]

/-- Claim C8 witness: the always-"hello" world W0, discharged concretely. -/
theorem call_ai_deep_think_iff_witness :
    call_ai_textT W0 none "q" none false =
      ({ text := "hello", audio := none }, [gen_call none "q" none]) ∧
    call_ai_textT W0 none "q" none true =
      ({ text := (director_review W0.gen "q" "hello").1, audio := none },
        gen_call none "q" none :: (director_review W0.gen "q" "hello").2) :=
  call_ai_deep_think_iff W0 none "q" none "hello" rfl

/-- Claim C9: for every request body, /process_text_stream emits the
fixed thinking events (a function of the deep_think flag alone), then one
response event carrying exactly the text and html that /process_text
returns for the same body, then a done event. -/
theorem process_text_stream_refines_process_text (W : World) (req : TextRequest) :
    ∃ r : TextResponse,
      process_text W req = some r ∧
      process_text_stream W req =
        thinking_events req.deep_think ++
          [StreamEvent.response r.text r.html, StreamEvent.done] := by
  refine ⟨{ text := (call_ai_textT W req.model req.prompt req.image req.deep_think).1.text,
            html := parse_markdown W
              (call_ai_textT W req.model req.prompt req.image req.deep_think).1.text },
          ?_, ?_⟩ <;>
    simp [process_text, process_text_stream, call_ai]

/-- Claim C10: call_ai is total at its public interface: mode "text" and
mode "voice" always produce a result dict (every exception is converted
to an error-text result inside), and every other mode falls through and
returns None. -/
theorem call_ai_mode_totality (W : World) (mode : String) (mid : Option String) (p : String)
    (aud img : Option String) (dt : Bool)
    (h1 : mode ≠ "text") (h2 : mode ≠ "voice") :
    (call_ai W "text" mid p aud img dt).isSome = true ∧
    (call_ai W "voice" mid p aud img dt).isSome = true ∧
    call_ai W mode mid p aud img dt = none := by
  refine ⟨by simp [call_ai], by simp [call_ai], by simp [call_ai, h1, h2]⟩

/-- Claim C10 witness: discharged at the unknown mode "studio". -/
theorem call_ai_mode_totality_witness :
    (call_ai W0 "text" none "p" none none false).isSome = true ∧
    (call_ai W0 "voice" none "p" none none false).isSome = true ∧
    call_ai W0 "studio" none "p" none none false = none :=
  call_ai_mode_totality W0 "studio" none "p" none none false (by decide) (by decide)

end RobloxAI
